import Mathlib

/-!
Verification development for the input-monitoring core of meikipop
(src/gui/input.py): the platform hotkey controllers, the hotkey-string
parsing done at controller construction, and the polling loop
(`InputLoop.run`) that turns mouse/keyboard samples into screenshot-latch
sets and hit-scan queue tokens.

The Python code is shallowly embedded:
  * controller construction returns `Except Fatal _`, where `Fatal`
    records the `logger.critical` + `sys.exit(1)` paths with the data
    each message interpolates;
  * the X11 environment (keysym table of the Xlib library and the
    keysym→keycode map of the connected display) is a parameter
    `(str2sym : String → Nat) (sym2code : Nat → Nat)`, with `0` playing the role of
    Python's falsy "not found" value;
  * one iteration of the polling loop becomes the pure function `tick`
    on an explicit `PollerState`, reading a per-tick snapshot
    `TickInput` of the configuration and of the two fallible OS queries
    (`Option` = the query raised), and emitting a `TickOutput` that
    counts the `screenshot_trigger_event.set()` calls per call site and
    lists the tokens put on `hit_scan_queue`.
-/

deriving instance DecidableEq for Except

namespace Meikipop

/-- The fatal construction-time errors of the keyboard controllers:
each constructor corresponds to a `logger.critical(...)` followed by
`sys.exit(1)` in src/gui/input.py, carrying the string the log message
interpolates (the offending token on Linux, the whole hotkey string on
macOS). -/
inductive Fatal where
  | unsupportedHotkeyLinux (token : String)
  | noKeycodesForHotkey (token : String)
  | unsupportedHotkeyMac (hotkey_str : String)
deriving DecidableEq

/-- Python `str.split(sep)` on the underlying character list (structural
recursion, so proofs can evaluate it): `"a+b"` splits into `["a", "b"]`,
`""` into `[""]`. -/
def splitCharAux (sep : Char) : List Char → List (List Char)
  | [] => [[]]
  | c :: rest =>
    match splitCharAux sep rest with
    | [] => [[c]]
    | g :: gs => if c = sep then [] :: g :: gs else (c :: g) :: gs

/-- Python `str.split(sep)` for a one-character separator. -/
def pySplit (sep : Char) (s : String) : List String :=
  (splitCharAux sep s.data).map String.mk

/-- Python `str.lower` (ASCII case mapping, which covers hotkey tokens). -/
def pyLower (s : String) : String :=
  String.mk (s.data.map Char.toLower)

/-- `modifier_map` of `LinuxX11KeyboardController._setup_keycodes`:
token → list of X keysym names; `none` models a failed `dict.get`. -/
def modifier_map : String → Option (List String) := fun key =>
  if key = "shift" then some ["Shift_L", "Shift_R"]
  else if key = "ctrl" then some ["Control_L", "Control_R"]
  else if key = "alt" then some ["Alt_L", "Alt_R"]
  else none

/-- The inner loop of `_setup_keycodes` that fills `group_keycodes`:
for each keysym name, `XK.string_to_keysym` (modelled by `str2sym`,
returning `0` when unknown) and `display.keysym_to_keycode` (modelled by
`sym2code`, returning `0` when unmapped); nonzero keycodes are added to
the set. Python's `set.add` is mirrored by a membership-guarded append,
so each keycode occurs once. -/
def buildGroup (str2sym : String → Nat) (sym2code : Nat → Nat) (target_keysyms : List String) : List Nat :=
  target_keysyms.foldl
    (fun group_keycodes keysym_str =>
      let keysym := str2sym keysym_str
      if keysym ≠ 0 then
        let keycode := sym2code keysym
        if keycode ≠ 0 then
          if keycode ∈ group_keycodes then group_keycodes else group_keycodes ++ [keycode]
        else group_keycodes
      else group_keycodes)
    []

/-- The token loop of `_setup_keycodes`: unknown token → fatal
(`Unsupported hotkey ... for Linux/X11`), empty resolved group → fatal
(`Could not find keycodes for hotkey ...`); otherwise the groups are
collected in token order into `self.modifier_groups`. -/
def setupGroups (str2sym : String → Nat) (sym2code : Nat → Nat) : List String → Except Fatal (List (List Nat))
  | [] => Except.ok []
  | key :: rest =>
    match modifier_map key with
    | none => Except.error (Fatal.unsupportedHotkeyLinux key)
    | some target_keysyms =>
      let group_keycodes := buildGroup str2sym sym2code target_keysyms
      if group_keycodes = [] then Except.error (Fatal.noKeycodesForHotkey key)
      else
        match setupGroups str2sym sym2code rest with
        | Except.error e => Except.error e
        | Except.ok groups => Except.ok (group_keycodes :: groups)

/-- `LinuxX11KeyboardController._setup_keycodes` on `self.hotkey_str.split('+')`. -/
def setup_keycodes (str2sym : String → Nat) (sym2code : Nat → Nat) (hotkey_str : String) :
    Except Fatal (List (List Nat)) :=
  setupGroups str2sym sym2code (pySplit '+' hotkey_str)

/-- `LinuxX11KeyboardController.__init__`: lowercases the hotkey string
and runs `_setup_keycodes` (the X display connection itself is part of
the environment parameters). The result is `self.modifier_groups`. -/
def linux_controller_init (str2sym : String → Nat) (sym2code : Nat → Nat) (hotkey_str : String) :
    Except Fatal (List (List Nat)) :=
  setup_keycodes str2sym sym2code (pyLower hotkey_str)

/-- The bit test of `is_hotkey_pressed`:
`(key_map[keycode // 8] >> (keycode % 8)) & 1`. The X keymap reply is
modelled as the byte array `key_map : Nat → Nat`. -/
def bit_test (key_map : Nat → Nat) (keycode : Nat) : Bool :=
  ((key_map (keycode / 8) >>> (keycode % 8)) &&& 1) == 1

/-- Inner loop of `LinuxX11KeyboardController.is_hotkey_pressed`: scans a
group and breaks at the first held keycode (`group_is_pressed`). -/
def group_pressed (key_map : Nat → Nat) : List Nat → Bool
  | [] => false
  | keycode :: rest =>
    if bit_test key_map keycode then true else group_pressed key_map rest

/-- `LinuxX11KeyboardController.is_hotkey_pressed` on a successfully read
keymap: returns `false` at the first group with no held keycode, `true`
after all groups pass (the `except XError: return false` path is modelled
at the polling loop, where the reading becomes an `Option Bool`). -/
def is_hotkey_pressed (key_map : Nat → Nat) : List (List Nat) → Bool
  | [] => true
  | group :: rest =>
    if group_pressed key_map group then is_hotkey_pressed key_map rest else false

/-- `WindowsKeyboardController.__init__`: stores the lowercased hotkey
string; there is no validation of any kind, so construction never fails. -/
def windows_controller_init (hotkey_str : String) : Except Fatal String :=
  Except.ok (pyLower hotkey_str)

/-- Outcomes of the external `keyboard.is_pressed` call used by the
Windows controller: a boolean answer, an `ImportError`, or any other
exception. -/
inductive WinKbResult where
  | answer (b : Bool)
  | importError
  | otherError
deriving DecidableEq

/-- `WindowsKeyboardController.is_hotkey_pressed`: `ImportError` from the
`keyboard` library is fatal (`sys.exit(1)`, modelled as `Except.error ()`),
any other exception is swallowed and reported as not pressed. -/
def windows_is_hotkey_pressed (query : String → WinKbResult) (hotkey_str : String) :
    Except Unit Bool :=
  match query hotkey_str with
  | WinKbResult.answer b => Except.ok b
  | WinKbResult.importError => Except.error ()
  | WinKbResult.otherError => Except.ok false

/-- `key_mapping` of `MacOSKeyboardController.__init__`; a miss is the
default `[]` of `dict.get(mod, [])`. -/
def mac_key_mapping : String → List Nat := fun mod_name =>
  if mod_name = "shift" then [56, 60]
  else if mod_name = "ctrl" then [59, 62]
  else if mod_name = "alt" then [58, 61]
  else if mod_name = "cmd" then [55, 54]
  else []

/-- The validation loop of `MacOSKeyboardController.__init__`: any token
with an empty `key_mapping` entry is fatal; the logged message
interpolates `self.hotkey_str` (the whole string, not the token). -/
def macCheckMods (hotkey_str : String) : List String → Except Fatal Unit
  | [] => Except.ok ()
  | mod_name :: rest =>
    if mac_key_mapping mod_name = [] then Except.error (Fatal.unsupportedHotkeyMac hotkey_str)
    else macCheckMods hotkey_str rest

/-- `MacOSKeyboardController.__init__`: lowercases, splits on `+` into
`self.modifiers`, and validates every token against `key_mapping`. -/
def mac_controller_init (hotkey_str : String) : Except Fatal (List String) :=
  let hs := pyLower hotkey_str
  let modifiers := pySplit '+' hs
  match macCheckMods hs modifiers with
  | Except.error e => Except.error e
  | Except.ok _ => Except.ok modifiers

/-! ### A concrete X11 environment for witnesses

Standard values of the Xlib keysym table and of a stock pc105 keymap;
these are test fixtures for the environment parameters, not code of the
repository. -/

/-- `XK.string_to_keysym` restricted to the six names `modifier_map` can
produce (X11 keysymdef values). -/
def xkStringToKeysym : String → Nat := fun s =>
  if s = "Shift_L" then 65505
  else if s = "Shift_R" then 65506
  else if s = "Control_L" then 65507
  else if s = "Control_R" then 65508
  else if s = "Alt_L" then 65513
  else if s = "Alt_R" then 65514
  else 0

/-- `display.keysym_to_keycode` of a stock pc105 X keymap. -/
def stdKeysymToKeycode : Nat → Nat := fun keysym =>
  if keysym = 65505 then 50
  else if keysym = 65506 then 62
  else if keysym = 65507 then 37
  else if keysym = 65508 then 105
  else if keysym = 65513 then 64
  else if keysym = 65514 then 108
  else 0

/-- Keymap with only Control_L (keycode 37 = byte 4, bit 5) held. -/
def kmOnlyCtrl : Nat → Nat := fun byte => if byte = 4 then 32 else 0

/-- Keymap with only Shift_L (keycode 50 = byte 6, bit 2) held. -/
def kmOnlyShift : Nat → Nat := fun byte => if byte = 6 then 4 else 0

/-- Keymap with Control_L and Shift_L held. -/
def kmCtrlShift : Nat → Nat := fun byte =>
  if byte = 4 then 32 else if byte = 6 then 4 else 0

/-! ### The polling loop (`InputLoop.run`) -/

/-- The loop-carried state of `InputLoop.run`: the locals
`last_mouse_pos` (initialised to `(0, 0)`) and `hotkey_was_pressed`
(initialised to `False`), and the instance field `self.started_auto_mode`
(initialised to `False` in `InputLoop.__init__`). -/
structure PollerState where
  last_mouse_pos : Int × Int
  hotkey_was_pressed : Bool
  started_auto_mode : Bool
deriving DecidableEq

/-- The per-tick snapshot one loop iteration reads: the configuration
flags, the pointer-position query (`none` = `mouse_controller.position`
raised) and the hotkey query (`none` = `is_hotkey_pressed` raised). -/
structure TickInput where
  is_enabled : Bool
  auto_scan_mode : Bool
  auto_scan_on_mouse_move : Bool
  mouse_pos_sample : Option (Int × Int)
  hotkey_sample : Option Bool
deriving DecidableEq

/-- What one loop iteration emits into the shared sinks: the number of
`screenshot_trigger_event.set()` calls per call site (manual-hotkey rule,
auto-mode-entry rule, auto-on-mouse-move rule) and the tokens put on
`hit_scan_queue`. -/
structure TickOutput where
  manual_sets : Nat
  auto_entry_sets : Nat
  mouse_move_sets : Nat
  hit_scan_enqueued : List (Bool × Option Unit)
deriving DecidableEq

/-- Total number of `screenshot_trigger_event.set()` calls of one tick. -/
def TickOutput.latch_sets (o : TickOutput) : Nat :=
  o.manual_sets + o.auto_entry_sets + o.mouse_move_sets

/-- The output of a tick that never reaches the trigger rules. -/
def emptyOutput : TickOutput :=
  { manual_sets := 0, auto_entry_sets := 0, mouse_move_sets := 0, hit_scan_enqueued := [] }

/-- The body of the `try:` block of one enabled iteration of
`InputLoop.run` (lines 162-192). `Except.error ()` is an exception
escaping the body (only the pointer-position query can raise in this
model; the hotkey query has its own inner handler that substitutes
`False`). The rules fire in source order: manual rising edge (line 170),
auto-mode entry (line 175) followed by the `started_auto_mode` update
(line 177), auto-on-mouse-move (line 180), hit-scan enqueue (line 184),
then the `last_mouse_pos` / `hotkey_was_pressed` updates (lines 190-191). -/
def runBody (s : PollerState) (inp : TickInput) : Except Unit (PollerState × TickOutput) :=
  match inp.mouse_pos_sample with
  | none => Except.error ()
  | some current_mouse_pos =>
    let hotkey_is_pressed := inp.hotkey_sample.getD false
    Except.ok
      ({ last_mouse_pos := current_mouse_pos
         hotkey_was_pressed := hotkey_is_pressed
         started_auto_mode := inp.auto_scan_mode },
       { manual_sets :=
           if hotkey_is_pressed && !s.hotkey_was_pressed && !inp.auto_scan_mode then 1 else 0
         auto_entry_sets :=
           if !s.started_auto_mode && inp.auto_scan_mode then 1 else 0
         mouse_move_sets :=
           if inp.auto_scan_mode && inp.auto_scan_on_mouse_move
              && (current_mouse_pos != s.last_mouse_pos) then 1 else 0
         hit_scan_enqueued :=
           if current_mouse_pos != s.last_mouse_pos then [(false, none)] else [] })

/-- One full iteration of the `while` loop of `InputLoop.run`: a disabled
tick (`if not config.is_enabled: continue`, lines 159-161) touches
nothing; otherwise the body runs under the bare `except:` of line 193,
which logs and continues with the state unchanged. -/
def tick (s : PollerState) (inp : TickInput) : PollerState × TickOutput :=
  if inp.is_enabled then
    match runBody s inp with
    | Except.ok r => r
    | Except.error _ => (s, emptyOutput)
  else (s, emptyOutput)

/-- A run of consecutive iterations, returning the final state and the
per-tick outputs in order. -/
def runTicks (s : PollerState) : List TickInput → PollerState × List TickOutput
  | [] => (s, [])
  | inp :: rest =>
    let r := tick s inp
    let rr := runTicks r.1 rest
    (rr.1, r.2 :: rr.2)

/-- The state `InputLoop.run` starts from (lines 151, 155, 156). -/
def initialPollerState : PollerState :=
  { last_mouse_pos := (0, 0), hotkey_was_pressed := false, started_auto_mode := false }

/-- Total screenshot-latch sets of a run. -/
def totalLatchSets (os : List TickOutput) : Nat :=
  (os.map TickOutput.latch_sets).sum

/-- Total latch sets of the manual-hotkey rule over a run. -/
def totalManualSets (os : List TickOutput) : Nat :=
  (os.map TickOutput.manual_sets).sum

/-- Total latch sets of the auto-mode-entry rule over a run. -/
def totalAutoEntrySets (os : List TickOutput) : Nat :=
  (os.map TickOutput.auto_entry_sets).sum

/-- Total latch sets of the auto-on-mouse-move rule over a run. -/
def totalMouseMoveSets (os : List TickOutput) : Nat :=
  (os.map TickOutput.mouse_move_sets).sum

/-- All tokens a run puts on `hit_scan_queue`, in order. -/
def allEnqueued (os : List TickOutput) : List (Bool × Option Unit) :=
  (os.map TickOutput.hit_scan_enqueued).flatten

/-- Number of position changes along a sampled trajectory, starting from
a previous position (the measuring device for the hit-scan claims). -/
def countChanges (prev : Int × Int) : List (Int × Int) → Nat
  | [] => 0
  | p :: ps => (if p ≠ prev then 1 else 0) + countChanges p ps

/-! ### The loop object and live reconfiguration (`reapply_settings`) -/

/-- The fields of `InputLoop` that reconfiguration touches: the
lowercased hotkey string and the current controller. The platform taken
throughout is Linux/X11 (the first branch of the OS dispatch), so the
controller is its `modifier_groups`. -/
structure InputLoopModel where
  hotkey_str : String
  keyboard_controller : List (List Nat)
deriving DecidableEq

/-- `InputLoop.__init__` lines 143-149: `self.hotkey_str = config.hotkey.lower()`
and construction of the platform controller from it (which validates). -/
def input_loop_init (str2sym : String → Nat) (sym2code : Nat → Nat) (cfg_hotkey : String) :
    Except Fatal InputLoopModel :=
  match linux_controller_init str2sym sym2code (pyLower cfg_hotkey) with
  | Except.error e => Except.error e
  | Except.ok groups =>
    Except.ok { hotkey_str := pyLower cfg_hotkey, keyboard_controller := groups }

/-- `InputLoop.reapply_settings` lines 203-211: re-reads `config.hotkey`,
lowercases it and replaces `self.keyboard_controller` with a freshly
constructed controller, re-running all construction-time validation. -/
def reapply_settings (str2sym : String → Nat) (sym2code : Nat → Nat) (cfg_hotkey : String)
    (loop : InputLoopModel) : Except Fatal InputLoopModel :=
  match linux_controller_init str2sym sym2code (pyLower cfg_hotkey) with
  | Except.error e => Except.error e
  | Except.ok groups =>
    Except.ok { loop with hotkey_str := pyLower cfg_hotkey, keyboard_controller := groups }

/-- A tick whose hotkey reading is taken from the loop's current
controller, as `self.keyboard_controller.is_hotkey_pressed()` does at
line 165, with the keyboard state `key_map` read from the X server. -/
def loopTick (loop : InputLoopModel) (key_map : Nat → Nat) (s : PollerState)
    (auto onMove enabled : Bool) (pos : Option (Int × Int)) : PollerState × TickOutput :=
  tick s
    { is_enabled := enabled, auto_scan_mode := auto, auto_scan_on_mouse_move := onMove,
      mouse_pos_sample := pos,
      hotkey_sample := some (is_hotkey_pressed key_map loop.keyboard_controller) }

/-! ### Fixtures for the disable/re-enable scenario -/

/-- Poller state recorded while enabled: the pointer was last sampled at
`(1, 1)`; auto mode already entered. -/
def c8State : PollerState :=
  { last_mouse_pos := (1, 1), hotkey_was_pressed := false, started_auto_mode := true }

/-- A tick during which the process-enabled flag is off while the pointer
sits at `(2, 2)` (it moved after the disable). -/
def c8Disabled : TickInput :=
  { is_enabled := false, auto_scan_mode := true, auto_scan_on_mouse_move := true,
    mouse_pos_sample := some (2, 2), hotkey_sample := some false }

/-- The first tick after re-enabling; the pointer has not moved since
the re-enable and still sits at `(2, 2)`. -/
def c8Reenabled : TickInput :=
  { is_enabled := true, auto_scan_mode := true, auto_scan_on_mouse_move := true,
    mouse_pos_sample := some (2, 2), hotkey_sample := some false }

/-! ### Shared lemmas about the tick function and runs -/

lemma group_pressed_iff (key_map : Nat → Nat) (g : List Nat) :
    group_pressed key_map g = true ↔ ∃ kc ∈ g, bit_test key_map kc = true := by
  induction g with
  | nil => simp [group_pressed]
  | cons k rest ih =>
    by_cases h : bit_test key_map k = true
    · simp [group_pressed, h]
    · simp [group_pressed, h, ih]

lemma is_hotkey_pressed_iff (key_map : Nat → Nat) (groups : List (List Nat)) :
    is_hotkey_pressed key_map groups = true ↔
      ∀ g ∈ groups, ∃ kc ∈ g, bit_test key_map kc = true := by
  induction groups with
  | nil => simp [is_hotkey_pressed]
  | cons g rest ih =>
    constructor
    · intro htrue
      have hg : group_pressed key_map g = true := by
        by_contra hng
        simp [is_hotkey_pressed, hng] at htrue
      intro g' hg'
      rcases List.mem_cons.mp hg' with rfl | hmem
      · exact (group_pressed_iff key_map g').mp hg
      · have hrest : is_hotkey_pressed key_map rest = true := by
          simpa [is_hotkey_pressed, hg] using htrue
        exact (ih.mp hrest) g' hmem
    · intro hall
      have hg : group_pressed key_map g = true :=
        (group_pressed_iff key_map g).mpr (hall g (by simp))
      have hrest : is_hotkey_pressed key_map rest = true :=
        ih.mpr (fun g' hm => hall g' (by simp [hm]))
      simpa [is_hotkey_pressed, hg] using hrest

lemma tick_disabled (s : PollerState) (i : TickInput) (h : i.is_enabled = false) :
    tick s i = (s, emptyOutput) := by
  simp [tick, h]

lemma tick_mouse_error (s : PollerState) (i : TickInput) (h : i.mouse_pos_sample = none) :
    tick s i = (s, emptyOutput) := by
  cases he : i.is_enabled
  · simp [tick, he]
  · simp [tick, runBody, he, h]

lemma tick_enabled (s : PollerState) (i : TickInput) (p : Int × Int)
    (he : i.is_enabled = true) (hm : i.mouse_pos_sample = some p) :
    tick s i =
      ({ last_mouse_pos := p
         hotkey_was_pressed := i.hotkey_sample.getD false
         started_auto_mode := i.auto_scan_mode },
       { manual_sets :=
           if i.hotkey_sample.getD false && !s.hotkey_was_pressed && !i.auto_scan_mode
           then 1 else 0
         auto_entry_sets := if !s.started_auto_mode && i.auto_scan_mode then 1 else 0
         mouse_move_sets :=
           if i.auto_scan_mode && i.auto_scan_on_mouse_move && (p != s.last_mouse_pos)
           then 1 else 0
         hit_scan_enqueued := if p != s.last_mouse_pos then [(false, none)] else [] }) := by
  simp [tick, runBody, he, hm]

lemma runTicks_cons (s : PollerState) (i : TickInput) (rest : List TickInput) :
    runTicks s (i :: rest)
      = ((runTicks (tick s i).1 rest).1, (tick s i).2 :: (runTicks (tick s i).1 rest).2) := by
  simp [runTicks]

lemma runTicks_append (s : PollerState) (a b : List TickInput) :
    runTicks s (a ++ b)
      = ((runTicks (runTicks s a).1 b).1,
         (runTicks s a).2 ++ (runTicks (runTicks s a).1 b).2) := by
  induction a generalizing s with
  | nil => simp [runTicks]
  | cons i rest ih => simp [runTicks, ih]

lemma totalLatchSets_cons (o : TickOutput) (os : List TickOutput) :
    totalLatchSets (o :: os) = o.latch_sets + totalLatchSets os := by
  simp [totalLatchSets]

lemma totalLatchSets_append (a b : List TickOutput) :
    totalLatchSets (a ++ b) = totalLatchSets a + totalLatchSets b := by
  simp [totalLatchSets]

lemma totalAutoEntrySets_cons (o : TickOutput) (os : List TickOutput) :
    totalAutoEntrySets (o :: os) = o.auto_entry_sets + totalAutoEntrySets os := by
  simp [totalAutoEntrySets]

lemma totalMouseMoveSets_cons (o : TickOutput) (os : List TickOutput) :
    totalMouseMoveSets (o :: os) = o.mouse_move_sets + totalMouseMoveSets os := by
  simp [totalMouseMoveSets]

lemma allEnqueued_cons (o : TickOutput) (os : List TickOutput) :
    allEnqueued (o :: os) = o.hit_scan_enqueued ++ allEnqueued os := by
  simp [allEnqueued]

/-- In a run of enabled, successfully sampled ticks whose hotkey reading
constantly equals the recorded previous state, with auto-scan off, no
latch is ever set and the recorded hotkey state is preserved. -/
lemma run_latch_zero_const_hotkey (b : Bool) (s0 : PollerState)
    (h0 : s0.hotkey_was_pressed = b) (inps : List TickInput)
    (h : ∀ i ∈ inps, i.is_enabled = true ∧ (∃ p, i.mouse_pos_sample = some p)
          ∧ i.hotkey_sample = some b ∧ i.auto_scan_mode = false) :
    totalLatchSets (runTicks s0 inps).2 = 0
      ∧ (runTicks s0 inps).1.hotkey_was_pressed = b := by
  induction inps generalizing s0 with
  | nil => simpa [runTicks, totalLatchSets] using h0
  | cons i rest ih =>
    obtain ⟨he, ⟨p, hm⟩, hh, ha⟩ := h i (by simp)
    have ht := tick_enabled s0 i p he hm
    have hrest := ih (tick s0 i).1 (by rw [ht]; simp [hh]) (fun j hj => h j (by simp [hj]))
    rw [runTicks_cons, totalLatchSets_cons]
    refine ⟨?_, hrest.2⟩
    rw [hrest.1, ht]
    simp [TickOutput.latch_sets, hh, ha, h0, Bool.and_comm]

/-- Once the recorded previous tick already held the hotkey, a tick with
auto-scan off sets the latch through no rule. -/
lemma tick_latch_zero_of_held (s : PollerState) (i : TickInput)
    (hs : s.hotkey_was_pressed = true) (ha : i.auto_scan_mode = false) :
    (tick s i).2.latch_sets = 0 := by
  cases he : i.is_enabled
  · simp [tick_disabled s i he, emptyOutput, TickOutput.latch_sets]
  · cases hm : i.mouse_pos_sample with
    | none => simp [tick_mouse_error s i hm, emptyOutput, TickOutput.latch_sets]
    | some p => simp [tick_enabled s i p he hm, TickOutput.latch_sets, hs, ha]

/-- Once `started_auto_mode` is recorded true, a run of ticks with
auto-scan staying on never fires the mode-entry rule again and keeps
`started_auto_mode` true. -/
lemma run_auto_on_no_reentry (s0 : PollerState) (h0 : s0.started_auto_mode = true)
    (inps : List TickInput) (h : ∀ i ∈ inps, i.auto_scan_mode = true) :
    totalAutoEntrySets (runTicks s0 inps).2 = 0
      ∧ (runTicks s0 inps).1.started_auto_mode = true := by
  induction inps generalizing s0 with
  | nil => simpa [runTicks, totalAutoEntrySets] using h0
  | cons i rest ih =>
    have ha := h i (by simp)
    have key : (tick s0 i).2.auto_entry_sets = 0 ∧ (tick s0 i).1.started_auto_mode = true := by
      cases he : i.is_enabled
      · simp [tick_disabled s0 i he, emptyOutput, h0]
      · cases hm : i.mouse_pos_sample with
        | none => simp [tick_mouse_error s0 i hm, emptyOutput, h0]
        | some p => simp [tick_enabled s0 i p he hm, h0, ha]
    have hrest := ih (tick s0 i).1 key.2 (fun j hj => h j (by simp [hj]))
    rw [runTicks_cons, totalAutoEntrySets_cons]
    exact ⟨by rw [key.1, hrest.1], hrest.2⟩

/-- A run whose every sampled pointer position equals the recorded
previous position never fires the mouse-move rule and leaves
`last_mouse_pos` unchanged. -/
lemma run_stationary_no_mouse_move (s0 : PollerState) (inps : List TickInput)
    (h : ∀ i ∈ inps, i.mouse_pos_sample = some s0.last_mouse_pos) :
    totalMouseMoveSets (runTicks s0 inps).2 = 0
      ∧ (runTicks s0 inps).1.last_mouse_pos = s0.last_mouse_pos := by
  induction inps generalizing s0 with
  | nil => simp [runTicks, totalMouseMoveSets]
  | cons i rest ih =>
    have hm := h i (by simp)
    have key : (tick s0 i).2.mouse_move_sets = 0
        ∧ (tick s0 i).1.last_mouse_pos = s0.last_mouse_pos := by
      cases he : i.is_enabled
      · simp [tick_disabled s0 i he, emptyOutput]
      · simp [tick_enabled s0 i s0.last_mouse_pos he hm]
    have hrest := ih (tick s0 i).1
      (fun j hj => by rw [key.2]; exact h j (by simp [hj]))
    rw [runTicks_cons, totalMouseMoveSets_cons]
    exact ⟨by rw [key.1, hrest.1], by rw [hrest.2, key.2]⟩

/-- If any token of the list is unknown to `modifier_map`, the token
loop of `_setup_keycodes` exits fatally (with one of its two
`sys.exit(1)` paths), under every keysym environment. -/
lemma setupGroups_error_of_unknown (str2sym : String → Nat) (sym2code : Nat → Nat)
    (keys : List String) (h : ∃ t ∈ keys, modifier_map t = none) :
    ∃ e, setupGroups str2sym sym2code keys = Except.error e := by
  induction keys with
  | nil => simp at h
  | cons key rest ih =>
    obtain ⟨t, ht, htm⟩ := h
    cases hmap : modifier_map key with
    | none => exact ⟨Fatal.unsupportedHotkeyLinux key, by simp [setupGroups, hmap]⟩
    | some ks =>
      have hmem : t ∈ rest := by
        rcases List.mem_cons.mp ht with rfl | hm
        · rw [hmap] at htm; exact (Option.some_ne_none ks htm).elim
        · exact hm
      by_cases hg : buildGroup str2sym sym2code ks = []
      · exact ⟨Fatal.noKeycodesForHotkey key, by simp [setupGroups, hmap, hg]⟩
      · obtain ⟨e, he⟩ := ih ⟨t, hmem, htm⟩
        exact ⟨e, by simp [setupGroups, hmap, hg, he]⟩

/-- Under a keysym environment that resolves every known token to a
nonempty keycode group, an unknown token in the list makes the token
loop exit with `Unsupported hotkey` naming an offending token. -/
lemma setupGroups_unsupported_of_unknown (str2sym : String → Nat) (sym2code : Nat → Nat)
    (hres : ∀ key ks, modifier_map key = some ks → buildGroup str2sym sym2code ks ≠ [])
    (keys : List String) (h : ∃ t ∈ keys, modifier_map t = none) :
    ∃ t ∈ keys, modifier_map t = none ∧
      setupGroups str2sym sym2code keys
        = Except.error (Fatal.unsupportedHotkeyLinux t) := by
  induction keys with
  | nil => simp at h
  | cons key rest ih =>
    cases hmap : modifier_map key with
    | none =>
      exact ⟨key, List.mem_cons_self key rest, hmap, by simp [setupGroups, hmap]⟩
    | some ks =>
      obtain ⟨t, ht, htm⟩ := h
      have hmem : t ∈ rest := by
        rcases List.mem_cons.mp ht with rfl | hm
        · rw [hmap] at htm; exact (Option.some_ne_none ks htm).elim
        · exact hm
      have hg := hres key ks hmap
      obtain ⟨t2, ht2, htm2, herr⟩ := ih ⟨t, hmem, htm⟩
      exact ⟨t2, List.mem_cons_of_mem key ht2, htm2,
        by simp [setupGroups, hmap, hg, herr]⟩

/-- If any token of the list has an empty `key_mapping` entry, the macOS
validation loop exits fatally, naming the whole hotkey string. -/
lemma macCheckMods_error_of_unknown (hs : String) (mods : List String)
    (h : ∃ t ∈ mods, mac_key_mapping t = []) :
    macCheckMods hs mods = Except.error (Fatal.unsupportedHotkeyMac hs) := by
  induction mods with
  | nil => simp at h
  | cons m rest ih =>
    by_cases hm : mac_key_mapping m = []
    · simp [macCheckMods, hm]
    · obtain ⟨t, ht, htm⟩ := h
      have hmem : t ∈ rest := by
        rcases List.mem_cons.mp ht with rfl | hr
        · exact absurd htm hm
        · exact hr
      simp [macCheckMods, hm, ih ⟨t, hmem, htm⟩]

/-- The stock pc105 environment resolves each of the three known Linux
tokens to a nonempty keycode group. -/
lemma stdEnv_resolves (key : String) (ks : List String)
    (h : modifier_map key = some ks) :
    buildGroup xkStringToKeysym stdKeysymToKeycode ks ≠ [] := by
  by_cases h1 : key = "shift"
  · subst h1; simp [modifier_map] at h; subst h; decide
  · by_cases h2 : key = "ctrl"
    · subst h2; simp [modifier_map] at h; subst h; decide
    · by_cases h3 : key = "alt"
      · subst h3; simp [modifier_map] at h; subst h; decide
      · simp [modifier_map, h1, h2, h3] at h

/-! ### Claim theorems -/

/-- **C1**: for every hotkey string whose tokens all parse into modifier
groups, the backend's `is_hotkey_pressed` returns true iff every modifier
group has at least one of its keycodes held down in the keymap (OR inside
a group, AND across groups); in particular for "ctrl+shift" under a stock
keymap: only ctrl held ⇒ false, only shift held ⇒ false, both ⇒ true. -/
theorem hotkey_and_of_or_semantics (str2sym : String → Nat) (sym2code : Nat → Nat)
    (hotkey_str : String) (groups : List (List Nat))
    (hparse : linux_controller_init str2sym sym2code hotkey_str = Except.ok groups)
    (key_map : Nat → Nat) :
    (is_hotkey_pressed key_map groups = true ↔
       ∀ g ∈ groups, ∃ kc ∈ g, bit_test key_map kc = true) ∧
    linux_controller_init xkStringToKeysym stdKeysymToKeycode "ctrl+shift"
      = Except.ok [[37, 105], [50, 62]] ∧
    is_hotkey_pressed kmOnlyCtrl [[37, 105], [50, 62]] = false ∧
    is_hotkey_pressed kmOnlyShift [[37, 105], [50, 62]] = false ∧
    is_hotkey_pressed kmCtrlShift [[37, 105], [50, 62]] = true :=
  ⟨is_hotkey_pressed_iff key_map groups, by decide, by decide, by decide, by decide⟩

/-- Witness for `hotkey_and_of_or_semantics`: the hypothesis holds at the
"ctrl+shift" string under the stock X11 environment, with the both-held
keymap. -/
theorem hotkey_and_of_or_semantics_witness :
    (is_hotkey_pressed kmCtrlShift [[37, 105], [50, 62]] = true ↔
       ∀ g ∈ [[37, 105], [50, 62]], ∃ kc ∈ g, bit_test kmCtrlShift kc = true) ∧
    linux_controller_init xkStringToKeysym stdKeysymToKeycode "ctrl+shift"
      = Except.ok [[37, 105], [50, 62]] ∧
    is_hotkey_pressed kmOnlyCtrl [[37, 105], [50, 62]] = false ∧
    is_hotkey_pressed kmOnlyShift [[37, 105], [50, 62]] = false ∧
    is_hotkey_pressed kmCtrlShift [[37, 105], [50, 62]] = true :=
  hotkey_and_of_or_semantics xkStringToKeysym stdKeysymToKeycode "ctrl+shift"
    [[37, 105], [50, 62]] (by decide) kmCtrlShift

/-- **C2, counterexample**: on the Windows variant, constructing the
backend from "ctrl+banana" is not a fatal error — construction performs
no validation and succeeds, and a query whose underlying library call
raises a non-import error is silently reported as not pressed. -/
theorem windows_accepts_unknown_token :
    windows_controller_init "ctrl+banana" = Except.ok "ctrl+banana" ∧
    windows_is_hotkey_pressed (fun _ => WinKbResult.otherError) "ctrl+banana"
      = Except.ok false :=
  ⟨by decide, rfl⟩

/-- **C2, amended**: for every hotkey string containing a token outside
the platform's modifier table, construction is fatal on the Linux/X11
variant under every keysym environment — and when the environment
resolves every known token, the diagnostic names an offending token —
and fatal on the macOS variant, whose diagnostic names the whole hotkey
string; the Windows variant never fails construction: it stores the
lowercased string with no validation of any kind. -/
theorem unknown_token_fatal_linux_mac_only :
    (∀ hotkey_str : String,
      windows_controller_init hotkey_str = Except.ok (pyLower hotkey_str)) ∧
    (∀ (str2sym : String → Nat) (sym2code : Nat → Nat) (hotkey_str : String),
      (∃ t ∈ pySplit '+' (pyLower hotkey_str), modifier_map t = none) →
      ∃ e, linux_controller_init str2sym sym2code hotkey_str = Except.error e) ∧
    (∀ (str2sym : String → Nat) (sym2code : Nat → Nat) (hotkey_str : String),
      (∀ key ks, modifier_map key = some ks → buildGroup str2sym sym2code ks ≠ []) →
      (∃ t ∈ pySplit '+' (pyLower hotkey_str), modifier_map t = none) →
      ∃ t ∈ pySplit '+' (pyLower hotkey_str), modifier_map t = none ∧
        linux_controller_init str2sym sym2code hotkey_str
          = Except.error (Fatal.unsupportedHotkeyLinux t)) ∧
    ∀ hotkey_str : String,
      (∃ t ∈ pySplit '+' (pyLower hotkey_str), mac_key_mapping t = []) →
      mac_controller_init hotkey_str
        = Except.error (Fatal.unsupportedHotkeyMac (pyLower hotkey_str)) := by
  refine ⟨fun _ => rfl, ?_, ?_, ?_⟩
  · intro str2sym sym2code hotkey_str h
    exact setupGroups_error_of_unknown str2sym sym2code _ h
  · intro str2sym sym2code hotkey_str hres h
    exact setupGroups_unsupported_of_unknown str2sym sym2code hres _ h
  · intro hotkey_str h
    have hc := macCheckMods_error_of_unknown (pyLower hotkey_str)
      (pySplit '+' (pyLower hotkey_str)) h
    simp [mac_controller_init, hc]

/-- Witness for `unknown_token_fatal_linux_mac_only`: all four conjuncts
instantiated at "ctrl+banana", the Linux ones under the stock pc105
environment (which resolves the known tokens, by `stdEnv_resolves`). -/
theorem unknown_token_fatal_linux_mac_only_witness :
    windows_controller_init "ctrl+banana" = Except.ok (pyLower "ctrl+banana") ∧
    (∃ e, linux_controller_init xkStringToKeysym stdKeysymToKeycode "ctrl+banana"
        = Except.error e) ∧
    (∃ t ∈ pySplit '+' (pyLower "ctrl+banana"), modifier_map t = none ∧
      linux_controller_init xkStringToKeysym stdKeysymToKeycode "ctrl+banana"
        = Except.error (Fatal.unsupportedHotkeyLinux t)) ∧
    mac_controller_init "ctrl+banana"
      = Except.error (Fatal.unsupportedHotkeyMac (pyLower "ctrl+banana")) :=
  ⟨unknown_token_fatal_linux_mac_only.1 "ctrl+banana",
   unknown_token_fatal_linux_mac_only.2.1 xkStringToKeysym stdKeysymToKeycode
     "ctrl+banana" ⟨"banana", by decide⟩,
   unknown_token_fatal_linux_mac_only.2.2.1 xkStringToKeysym stdKeysymToKeycode
     "ctrl+banana" stdEnv_resolves ⟨"banana", by decide⟩,
   unknown_token_fatal_linux_mac_only.2.2.2 "ctrl+banana" ⟨"banana", by decide⟩⟩

/-- **C3**: with auto-scan off throughout a run of enabled ticks, a
hotkey reading that is false for a prefix, then true from some tick on,
sets the screenshot latch exactly once over the whole run, namely by the
manual rule on the rising-edge tick; and a tick whose recorded previous
state already held the hotkey sets the latch through no rule. -/
theorem manual_rising_edge_sets_latch_once (s0 : PollerState)
    (h0 : s0.hotkey_was_pressed = false)
    (pre : List TickInput) (ti : TickInput) (post : List TickInput)
    (hpre : ∀ i ∈ pre, i.is_enabled = true ∧ (∃ p, i.mouse_pos_sample = some p)
          ∧ i.hotkey_sample = some false ∧ i.auto_scan_mode = false)
    (hti : ti.is_enabled = true ∧ (∃ p, ti.mouse_pos_sample = some p)
          ∧ ti.hotkey_sample = some true ∧ ti.auto_scan_mode = false)
    (hpost : ∀ i ∈ post, i.is_enabled = true ∧ (∃ p, i.mouse_pos_sample = some p)
          ∧ i.hotkey_sample = some true ∧ i.auto_scan_mode = false) :
    totalLatchSets (runTicks s0 (pre ++ ti :: post)).2 = 1 ∧
    (tick (runTicks s0 pre).1 ti).2.manual_sets = 1 ∧
    ∀ (s : PollerState) (i : TickInput), s.hotkey_was_pressed = true →
      i.auto_scan_mode = false → (tick s i).2.latch_sets = 0 := by
  obtain ⟨he, ⟨p, hm⟩, hh, ha⟩ := hti
  have hpre0 := run_latch_zero_const_hotkey false s0 h0 pre hpre
  have ht := tick_enabled (runTicks s0 pre).1 ti p he hm
  have hmanual : (tick (runTicks s0 pre).1 ti).2.manual_sets = 1 := by
    rw [ht]; simp [hh, hpre0.2, ha]
  have hlatch : (tick (runTicks s0 pre).1 ti).2.latch_sets = 1 := by
    rw [ht]; simp [TickOutput.latch_sets, hh, hpre0.2, ha]
  have hs2 : (tick (runTicks s0 pre).1 ti).1.hotkey_was_pressed = true := by
    rw [ht]; simp [hh]
  have hpost0 := run_latch_zero_const_hotkey true (tick (runTicks s0 pre).1 ti).1 hs2 post hpost
  refine ⟨?_, hmanual, fun s i hs hauto => tick_latch_zero_of_held s i hs hauto⟩
  rw [runTicks_append]
  simp only [runTicks_cons]
  rw [totalLatchSets_append, totalLatchSets_cons, hpre0.1, hlatch, hpost0.1]

/-- Witness for `manual_rising_edge_sets_latch_once`: one false tick,
then two held ticks, from the initial state. -/
theorem manual_rising_edge_sets_latch_once_witness :
    totalLatchSets (runTicks initialPollerState
      ([{ is_enabled := true, auto_scan_mode := false, auto_scan_on_mouse_move := false,
          mouse_pos_sample := some (5, 5), hotkey_sample := some false }] ++
       { is_enabled := true, auto_scan_mode := false, auto_scan_on_mouse_move := false,
         mouse_pos_sample := some (5, 5), hotkey_sample := some true } ::
       [{ is_enabled := true, auto_scan_mode := false, auto_scan_on_mouse_move := false,
          mouse_pos_sample := some (6, 6), hotkey_sample := some true }])).2 = 1 :=
  (manual_rising_edge_sets_latch_once initialPollerState rfl _ _ _
    (by intro i hi; simp at hi; subst hi; exact ⟨rfl, ⟨(5, 5), rfl⟩, rfl, rfl⟩)
    ⟨rfl, ⟨(5, 5), rfl⟩, rfl, rfl⟩
    (by intro i hi; simp at hi; subst hi; exact ⟨rfl, ⟨(6, 6), rfl⟩, rfl, rfl⟩)).1

/-- **C4**: a tick on which auto-scan is on but was recorded off fires
the mode-entry rule exactly once, whatever the hotkey reading and pointer
position; and over any continuation during which auto-scan stays on the
mode-entry rule never fires again, so the whole run fires it exactly
once. -/
theorem auto_entry_edge_sets_latch_once (s0 : PollerState)
    (h0 : s0.started_auto_mode = false)
    (ti : TickInput) (he : ti.is_enabled = true) (p : Int × Int)
    (hm : ti.mouse_pos_sample = some p) (ha : ti.auto_scan_mode = true)
    (rest : List TickInput) (hrest : ∀ i ∈ rest, i.auto_scan_mode = true) :
    (tick s0 ti).2.auto_entry_sets = 1 ∧
    totalAutoEntrySets (runTicks s0 (ti :: rest)).2 = 1 ∧
    ∀ (s : PollerState) (i : TickInput), s.started_auto_mode = true →
      (tick s i).2.auto_entry_sets = 0 := by
  have ht := tick_enabled s0 ti p he hm
  have hentry : (tick s0 ti).2.auto_entry_sets = 1 := by
    rw [ht]; simp [h0, ha]
  have hsam : (tick s0 ti).1.started_auto_mode = true := by
    rw [ht]; simp [ha]
  have hrest0 := run_auto_on_no_reentry (tick s0 ti).1 hsam rest hrest
  have hzero : ∀ (s : PollerState) (i : TickInput), s.started_auto_mode = true →
      (tick s i).2.auto_entry_sets = 0 := by
    intro s i hs
    cases hen : i.is_enabled
    · simp [tick_disabled s i hen, emptyOutput]
    · cases hmp : i.mouse_pos_sample with
      | none => simp [tick_mouse_error s i hmp, emptyOutput]
      | some q => simp [tick_enabled s i q hen hmp, hs]
  refine ⟨hentry, ?_, hzero⟩
  rw [runTicks_cons, totalAutoEntrySets_cons, hentry, hrest0.1]

/-- Witness for `auto_entry_edge_sets_latch_once`: the auto-scan flag
turns on for two ticks starting from the initial state. -/
theorem auto_entry_edge_sets_latch_once_witness :
    totalAutoEntrySets (runTicks initialPollerState
      ({ is_enabled := true, auto_scan_mode := true, auto_scan_on_mouse_move := false,
         mouse_pos_sample := some (7, 7), hotkey_sample := some true } ::
       [{ is_enabled := true, auto_scan_mode := true, auto_scan_on_mouse_move := false,
          mouse_pos_sample := some (8, 8), hotkey_sample := none }])).2 = 1 :=
  (auto_entry_edge_sets_latch_once initialPollerState rfl _ rfl (7, 7) rfl rfl _
    (by intro i hi; simp at hi; subst hi; rfl)).2.1

/-- **C5**: with every sampled position equal to the recorded previous
position, a run fires the auto-on-mouse-move rule zero times; and a
single enabled tick with auto-scan and "only on mouse move" on whose
position differs from the recorded previous position fires it exactly
once. -/
theorem mouse_move_gating (s0 : PollerState) (inps : List TickInput)
    (hstat : ∀ i ∈ inps, i.mouse_pos_sample = some s0.last_mouse_pos) :
    totalMouseMoveSets (runTicks s0 inps).2 = 0 ∧
    ∀ (s : PollerState) (i : TickInput) (p : Int × Int), i.is_enabled = true →
      i.mouse_pos_sample = some p → i.auto_scan_mode = true →
      i.auto_scan_on_mouse_move = true → p ≠ s.last_mouse_pos →
      (tick s i).2.mouse_move_sets = 1 := by
  refine ⟨(run_stationary_no_mouse_move s0 inps hstat).1, ?_⟩
  intro s i p he hm ha hmm hne
  rw [tick_enabled s i p he hm]
  simp [ha, hmm, hne]

/-- Witness for `mouse_move_gating`: three stationary ticks at the
initial position, and one moved tick. -/
theorem mouse_move_gating_witness :
    totalMouseMoveSets (runTicks initialPollerState
      [{ is_enabled := true, auto_scan_mode := true, auto_scan_on_mouse_move := true,
         mouse_pos_sample := some (0, 0), hotkey_sample := some false },
       { is_enabled := true, auto_scan_mode := true, auto_scan_on_mouse_move := true,
         mouse_pos_sample := some (0, 0), hotkey_sample := none },
       { is_enabled := false, auto_scan_mode := true, auto_scan_on_mouse_move := true,
         mouse_pos_sample := some (0, 0), hotkey_sample := some true }]).2 = 0 ∧
    (tick initialPollerState
      { is_enabled := true, auto_scan_mode := true, auto_scan_on_mouse_move := true,
        mouse_pos_sample := some (9, 9), hotkey_sample := some false }).2.mouse_move_sets = 1 := by
  have h := mouse_move_gating initialPollerState
    [{ is_enabled := true, auto_scan_mode := true, auto_scan_on_mouse_move := true,
       mouse_pos_sample := some (0, 0), hotkey_sample := some false },
     { is_enabled := true, auto_scan_mode := true, auto_scan_on_mouse_move := true,
       mouse_pos_sample := some (0, 0), hotkey_sample := none },
     { is_enabled := false, auto_scan_mode := true, auto_scan_on_mouse_move := true,
       mouse_pos_sample := some (0, 0), hotkey_sample := some true }]
    (by intro i hi; simp [initialPollerState]; fin_cases hi <;> rfl)
  exact ⟨h.1, h.2 initialPollerState _ (9, 9) rfl rfl rfl rfl (by decide)⟩

/-- **C6**: over a run of enabled, successfully sampled ticks, the
hit-scan queue receives exactly one token per tick whose sampled position
differs from the evolving previous position, every token is
`(false, none)`, and what a tick enqueues depends only on the enabled
flag and the sampled position — not on the hotkey or auto-scan state. -/
theorem hit_scan_enqueue_per_change (s0 : PollerState) (inps : List TickInput)
    (h : ∀ i ∈ inps, i.is_enabled = true ∧ (∃ p, i.mouse_pos_sample = some p)) :
    (allEnqueued (runTicks s0 inps).2).length
        = countChanges s0.last_mouse_pos
            (inps.map (fun i => i.mouse_pos_sample.getD (0, 0))) ∧
    (∀ t ∈ allEnqueued (runTicks s0 inps).2, t = (false, none)) ∧
    ∀ (s : PollerState) (i j : TickInput), i.is_enabled = j.is_enabled →
      i.mouse_pos_sample = j.mouse_pos_sample →
      (tick s i).2.hit_scan_enqueued = (tick s j).2.hit_scan_enqueued := by
  have indep : ∀ (s : PollerState) (i j : TickInput), i.is_enabled = j.is_enabled →
      i.mouse_pos_sample = j.mouse_pos_sample →
      (tick s i).2.hit_scan_enqueued = (tick s j).2.hit_scan_enqueued := by
    intro s i j hen hm
    cases he : i.is_enabled
    · rw [tick_disabled s i he, tick_disabled s j (hen.symm.trans he)]
    · cases hmp : i.mouse_pos_sample with
      | none => rw [tick_mouse_error s i hmp, tick_mouse_error s j (hm.symm.trans hmp)]
      | some p =>
        rw [tick_enabled s i p he hmp,
            tick_enabled s j p (hen.symm.trans he) (hm.symm.trans hmp)]
  have main : ∀ (l : List TickInput) (s : PollerState),
      (∀ i ∈ l, i.is_enabled = true ∧ (∃ p, i.mouse_pos_sample = some p)) →
      (allEnqueued (runTicks s l).2).length
          = countChanges s.last_mouse_pos (l.map (fun i => i.mouse_pos_sample.getD (0, 0)))
        ∧ ∀ t ∈ allEnqueued (runTicks s l).2, t = (false, none) := by
    intro l
    induction l with
    | nil => intro s _; simp [runTicks, allEnqueued, countChanges]
    | cons i rest ih =>
      intro s hl
      obtain ⟨he, ⟨p, hm⟩⟩ := hl i (by simp)
      have ht := tick_enabled s i p he hm
      have hq : (tick s i).2.hit_scan_enqueued
          = if p != s.last_mouse_pos then [(false, none)] else [] := by rw [ht]
      have hstate : (tick s i).1.last_mouse_pos = p := by rw [ht]
      have hrest := ih (tick s i).1 (fun j hj => hl j (by simp [hj]))
      rw [runTicks_cons, allEnqueued_cons]
      constructor
      · rw [List.length_append, hq]
        simp only [List.map_cons, countChanges, hm, Option.getD_some]
        rw [hrest.1, hstate]
        by_cases hpq : p = s.last_mouse_pos
        · simp [hpq]
        · simp [hpq]
      · intro t htm
        rcases List.mem_append.mp htm with h1 | h2
        · rw [hq] at h1
          by_cases hpq : p = s.last_mouse_pos
          · simp [hpq] at h1
          · simp [hpq] at h1; exact h1
        · exact hrest.2 t h2
  exact ⟨(main inps s0 h).1, (main inps s0 h).2, indep⟩

/-- Witness for `hit_scan_enqueue_per_change`: three ticks of which two
move the pointer. -/
theorem hit_scan_enqueue_per_change_witness :
    (allEnqueued (runTicks initialPollerState
      [{ is_enabled := true, auto_scan_mode := false, auto_scan_on_mouse_move := false,
         mouse_pos_sample := some (1, 0), hotkey_sample := some false },
       { is_enabled := true, auto_scan_mode := true, auto_scan_on_mouse_move := true,
         mouse_pos_sample := some (1, 0), hotkey_sample := none },
       { is_enabled := true, auto_scan_mode := false, auto_scan_on_mouse_move := false,
         mouse_pos_sample := some (2, 0), hotkey_sample := some true }]).2).length
      = countChanges initialPollerState.last_mouse_pos
          (([{ is_enabled := true, auto_scan_mode := false, auto_scan_on_mouse_move := false,
               mouse_pos_sample := some (1, 0), hotkey_sample := some false },
             { is_enabled := true, auto_scan_mode := true, auto_scan_on_mouse_move := true,
               mouse_pos_sample := some (1, 0), hotkey_sample := none },
             { is_enabled := true, auto_scan_mode := false, auto_scan_on_mouse_move := false,
               mouse_pos_sample := some (2, 0), hotkey_sample := some true }] : List TickInput).map
            (fun i => i.mouse_pos_sample.getD (0, 0))) :=
  (hit_scan_enqueue_per_change initialPollerState _
    (by intro i hi; fin_cases hi
        · exact ⟨rfl, ⟨(1, 0), rfl⟩⟩
        · exact ⟨rfl, ⟨(1, 0), rfl⟩⟩
        · exact ⟨rfl, ⟨(2, 0), rfl⟩⟩)).1

/-- **C7**: an exception from the hotkey query makes the tick behave
exactly as a not-pressed reading for that tick only, and an exception
from the pointer-position query escapes the body (`runBody`), is caught
by the loop's bare `except:`, and leaves state and sinks untouched;
`tick` itself is total, so no exception propagates out of an iteration. -/
theorem tick_exception_containment :
    (∀ (s : PollerState) (i : TickInput),
        tick s { i with hotkey_sample := none }
          = tick s { i with hotkey_sample := some false }) ∧
    ∀ (s : PollerState) (i : TickInput), i.mouse_pos_sample = none →
      runBody s i = Except.error () ∧ tick s i = (s, emptyOutput) := by
  constructor
  · intro s i
    cases he : i.is_enabled
    · simp [tick, he]
    · cases hm : i.mouse_pos_sample with
      | none => simp [tick, runBody, he, hm]
      | some p => simp [tick, runBody, he, hm]
  · intro s i hm
    exact ⟨by simp [runBody, hm], tick_mouse_error s i hm⟩

/-- Witness for `tick_exception_containment`: a concrete tick whose
hotkey query raises equals the same tick reading not-pressed, and a
concrete tick whose pointer query raises is a no-op. -/
theorem tick_exception_containment_witness :
    tick initialPollerState
      { is_enabled := true, auto_scan_mode := false, auto_scan_on_mouse_move := false,
        mouse_pos_sample := some (1, 1), hotkey_sample := none }
      = tick initialPollerState
        { is_enabled := true, auto_scan_mode := false, auto_scan_on_mouse_move := false,
          mouse_pos_sample := some (1, 1), hotkey_sample := some false } ∧
    tick initialPollerState
      { is_enabled := true, auto_scan_mode := false, auto_scan_on_mouse_move := false,
        mouse_pos_sample := none, hotkey_sample := some true }
      = (initialPollerState, emptyOutput) :=
  ⟨tick_exception_containment.1 initialPollerState
      { is_enabled := true, auto_scan_mode := false, auto_scan_on_mouse_move := false,
        mouse_pos_sample := some (1, 1), hotkey_sample := some true },
   (tick_exception_containment.2 initialPollerState
      { is_enabled := true, auto_scan_mode := false, auto_scan_on_mouse_move := false,
        mouse_pos_sample := none, hotkey_sample := some true } rfl).2⟩

/-- **C8, counterexample**: with the pointer having moved from `(1, 1)`
to `(2, 2)` during a disabled tick, the first re-enabled tick — the
pointer not having moved since re-enabling — enqueues a hit-scan token
and fires the mouse-move latch rule, i.e. a trigger attributable to
motion that occurred while disabled is replayed. -/
theorem reenable_replays_disabled_motion :
    (runTicks c8State [c8Disabled]).1 = c8State ∧
    (runTicks c8State [c8Disabled]).2 = [emptyOutput] ∧
    allEnqueued (runTicks c8State [c8Disabled, c8Reenabled]).2 = [(false, none)] ∧
    totalMouseMoveSets (runTicks c8State [c8Disabled, c8Reenabled]).2 = 1 := by
  decide

/-- **C8, amended**: a disabled tick performs no sampling, changes no
state, sets no latch and enqueues nothing; and because the previous
position/hotkey state is frozen rather than replayed event by event, any
single tick — in particular the first re-enabled one — enqueues at most
one token and fires each latch rule at most once, however much happened
while disabled. -/
theorem disabled_tick_noop_no_backlog :
    (∀ (s : PollerState) (i : TickInput), i.is_enabled = false →
        tick s i = (s, emptyOutput)) ∧
    ∀ (s : PollerState) (i : TickInput),
      (tick s i).2.hit_scan_enqueued.length ≤ 1 ∧ (tick s i).2.manual_sets ≤ 1 ∧
      (tick s i).2.auto_entry_sets ≤ 1 ∧ (tick s i).2.mouse_move_sets ≤ 1 := by
  refine ⟨fun s i h => tick_disabled s i h, ?_⟩
  intro s i
  cases he : i.is_enabled
  · simp [tick_disabled s i he, emptyOutput]
  · cases hm : i.mouse_pos_sample with
    | none => simp [tick_mouse_error s i hm, emptyOutput]
    | some p =>
      rw [tick_enabled s i p he hm]
      refine ⟨?_, ?_, ?_, ?_⟩ <;> dsimp only <;> split <;> simp

/-- Witness for `disabled_tick_noop_no_backlog`: a concrete disabled
tick is a no-op, and the concrete re-enabled tick stays within the
per-tick bounds. -/
theorem disabled_tick_noop_no_backlog_witness :
    tick c8State c8Disabled = (c8State, emptyOutput) ∧
    (tick c8State c8Reenabled).2.hit_scan_enqueued.length ≤ 1 :=
  ⟨disabled_tick_noop_no_backlog.1 c8State c8Disabled rfl,
   (disabled_tick_noop_no_backlog.2 c8State c8Reenabled).1⟩

/-- **C9**: `reapply_settings` builds a brand-new controller from the
current configured hotkey (re-running construction-time validation, so a
bad hotkey is still fatal) and replaces the loop's controller; concretely
starting from hotkey "shift", a rising edge with only shift held fires
the manual rule; after reconfiguring live to "ctrl", only-shift no longer
fires and only-ctrl does. -/
theorem reapply_settings_switches_hotkey :
    input_loop_init xkStringToKeysym stdKeysymToKeycode "shift"
      = Except.ok { hotkey_str := "shift", keyboard_controller := [[50, 62]] } ∧
    (loopTick { hotkey_str := "shift", keyboard_controller := [[50, 62]] } kmOnlyShift
        initialPollerState false false true (some (0, 0))).2.manual_sets = 1 ∧
    reapply_settings xkStringToKeysym stdKeysymToKeycode "ctrl"
        { hotkey_str := "shift", keyboard_controller := [[50, 62]] }
      = Except.ok { hotkey_str := "ctrl", keyboard_controller := [[37, 105]] } ∧
    (loopTick { hotkey_str := "ctrl", keyboard_controller := [[37, 105]] } kmOnlyShift
        initialPollerState false false true (some (0, 0))).2.manual_sets = 0 ∧
    (loopTick { hotkey_str := "ctrl", keyboard_controller := [[37, 105]] } kmOnlyCtrl
        initialPollerState false false true (some (0, 0))).2.manual_sets = 1 ∧
    reapply_settings xkStringToKeysym stdKeysymToKeycode "ctrl+banana"
        { hotkey_str := "shift", keyboard_controller := [[50, 62]] }
      = Except.error (Fatal.unsupportedHotkeyLinux "banana") := by
  decide

/-- **C10**: the loop starts with `last_mouse_pos = (0, 0)`, so on the
very first enabled tick any pointer position other than `(0, 0)` counts
as a change: one `(false, none)` hit-scan token is enqueued, and with
auto-scan plus "only on mouse move" on, the mouse-move latch rule also
fires — without any actual motion. -/
theorem first_tick_spurious_trigger (p : Int × Int) (hp : p ≠ (0, 0)) (i : TickInput)
    (he : i.is_enabled = true) (hm : i.mouse_pos_sample = some p) :
    (tick initialPollerState i).2.hit_scan_enqueued = [(false, none)] ∧
    (i.auto_scan_mode = true → i.auto_scan_on_mouse_move = true →
      (tick initialPollerState i).2.mouse_move_sets = 1) := by
  rw [tick_enabled initialPollerState i p he hm]
  constructor
  · simp [initialPollerState, hp]
    simpa using hp
  · intro h1 h2
    simp [initialPollerState, h1, h2, hp]
    simpa using hp

/-- Witness for `first_tick_spurious_trigger`: first tick with the
pointer at `(100, 200)`, auto-scan and mouse-move gating on. -/
theorem first_tick_spurious_trigger_witness :
    (tick initialPollerState
      { is_enabled := true, auto_scan_mode := true, auto_scan_on_mouse_move := true,
        mouse_pos_sample := some (100, 200), hotkey_sample := some false }).2.hit_scan_enqueued
      = [(false, none)] ∧
    (tick initialPollerState
      { is_enabled := true, auto_scan_mode := true, auto_scan_on_mouse_move := true,
        mouse_pos_sample := some (100, 200),
        hotkey_sample := some false }).2.mouse_move_sets = 1 :=
  ⟨(first_tick_spurious_trigger (100, 200) (by decide) _ rfl rfl).1,
   (first_tick_spurious_trigger (100, 200) (by decide) _ rfl rfl).2 rfl rfl⟩

end Meikipop
